import Mathlib

/-!
Verification development for the hybrid content-type / page-type detection
engines of the real-estate-llm-generator repository
(`backend/core/llm/content_detection.py`, `backend/core/llm/content_types.py`,
`backend/core/llm/page_type_detection.py`).

Modelling conventions:
* Python floats are modelled as exact rationals (`ℚ`); all constants involved
  (0.3, 0.4, 0.6, 0.95, ...) are exactly representable, and the code only
  adds, multiplies and divides small decimals.
* The two external library collaborators are modelled at their call
  boundaries:
  - `BeautifulSoup(html).get_text()` (script/style stripped): functions that
    in Python receive `html` here receive the extracted visible text
    directly (for plain text without markup the two coincide);
  - `_count_item_cards` (DOM traversal by class-name substrings) is passed
    in as an explicit `card_count : Nat`;
  - the OpenAI client is an oracle parameter: `Except String OpenAIVerdict`,
    where `.error e` models the call raising an exception with message `e`;
  - `classify_with_llm` of the content-type cascade is an oracle pair
    `(category, confidence)`.
* `urllib.parse.urlparse` is modelled for ordinary absolute URLs: `netloc`
  is the text between `"://"` and the next `/`, `?` or `#`; the path is what
  follows the netloc up to `?` or `#`.  URLs without `"://"` have an empty
  netloc, matching `urlparse` on scheme-less strings.
* Python's `str.lower` is modelled by `Char.toLower` character-wise (they
  agree on ASCII; every comparison the detection code performs that matters
  to the claims is ASCII).
-/

/-! ## Generic string machinery -/

/-- Character-wise lowercasing, modelling Python `str.lower()` (ASCII-faithful). -/
def strLower (s : String) : String := ⟨s.data.map Char.toLower⟩

/-- Does some suffix of the list satisfy `p`?  Used to model `re.search`
(match may start at any position, including the end-of-string position). -/
def anySuffix (p : List Char → Bool) : List Char → Bool
  | [] => p []
  | c :: rest => p (c :: rest) || anySuffix p rest

/-- Python's substring test `pat in text`. -/
def strContains (text pat : String) : Bool :=
  anySuffix (fun l => pat.data.isPrefixOf l) text.data

/-- Python's `l.replace("www.", "")`: removes every (non-overlapping,
left-to-right) occurrence of `www.`. -/
def pyReplaceWww : List Char → List Char
  | 'w' :: 'w' :: 'w' :: '.' :: rest => pyReplaceWww rest
  | c :: rest => c :: pyReplaceWww rest
  | [] => []

def pyReplaceWwwStr (s : String) : String := ⟨pyReplaceWww s.data⟩

/-- The characters following the first `"://"`, if any. -/
def afterSchemeSep : List Char → Option (List Char)
  | [] => none
  | c :: rest =>
    if c = ':' ∧ rest.take 2 = ['/', '/'] then some (rest.drop 2)
    else afterSchemeSep rest

/-- `urlparse(url).netloc` for ordinary absolute URLs. -/
def netloc (url : String) : String :=
  match afterSchemeSep url.data with
  | none => ""
  | some rest => ⟨rest.takeWhile (fun c => !(c == '/' || c == '?' || c == '#'))⟩

/-- `urlparse(url).path` for ordinary absolute URLs. -/
def urlPath (url : String) : String :=
  match afterSchemeSep url.data with
  | none => ⟨url.data.takeWhile (fun c => !(c == '?' || c == '#'))⟩
  | some rest =>
    ⟨((rest.dropWhile (fun c => !(c == '/' || c == '?' || c == '#'))).takeWhile
        (fun c => !(c == '?' || c == '#')))⟩

/-! ## `content_types.py`: the `CONTENT_TYPES` registry

Only the fields the detection logic reads (`domains`, `keywords`) are
carried; `label`, `icon`, `prompt_key` and `description` feed the UI and the
extraction prompts, which are outside the detection core. -/

structure CategoryProfile where
  key : String
  domains : List String
  keywords : List String
deriving DecidableEq, Repr

def realEstateProfile : CategoryProfile :=
  { key := "real_estate"
    domains := ["brevitas.com", "coldwellbanker", "coldwellbankercostarica.com",
                "encuentra24.com", "century21", "remax", "properati",
                "mercadolibre", "olx"]
    keywords := ["bedroom", "bedrooms", "habitaciones", "recámaras",
                 "bathroom", "bathrooms", "baños",
                 "sqft", "square feet", "m2", "m²", "metros cuadrados",
                 "property", "propiedad", "casa", "house", "apartment", "apartamento",
                 "for sale", "venta", "for rent", "alquiler",
                 "lot size", "terreno", "land"] }

def tourProfile : CategoryProfile :=
  { key := "tour"
    domains := ["viator.com", "getyourguide.com", "tripadvisor",
                "airbnbexperiences", "klook.com", "costarica.org"]
    keywords := ["tour", "tours", "excursion", "excursiones", "excursions",
                 "activity", "activities", "actividades",
                 "adventure", "adventures", "aventura",
                 "experience", "experiences", "experiencias",
                 "duration", "duración",
                 "guide", "guía", "guided",
                 "included", "incluye", "includes",
                 "pickup", "recogida",
                 "participants", "participantes",
                 "difficulty", "dificultad",
                 "booking", "reserva", "book",
                 "itinerary", "itinerario",
                 "wildlife", "nature", "naturaleza",
                 "zip line", "canopy", "rafting", "hiking"] }

def restaurantProfile : CategoryProfile :=
  { key := "restaurant"
    domains := ["yelp.com", "zomato.com", "opentable.com", "tripadvisor",
                "happycow.net"]
    keywords := ["restaurant", "restaurante",
                 "menu", "menú",
                 "cuisine", "cocina",
                 "dish", "dishes", "platillos", "platos",
                 "reservation", "reserva", "reservations",
                 "dining", "comida",
                 "chef",
                 "hours", "horario",
                 "price range", "rango de precio"] }

def localTipsProfile : CategoryProfile :=
  { key := "local_tips"
    domains := ["wikivoyage", "lonelyplanet", "nomadicmatt", "reddit.com/r/travel"]
    keywords := ["tip", "tips", "consejos",
                 "advice", "recomendación",
                 "local", "locals",
                 "avoid", "evitar",
                 "safety", "seguridad",
                 "scam", "estafa",
                 "budget", "presupuesto",
                 "money", "dinero",
                 "customs", "costumbres"] }

def transportationProfile : CategoryProfile :=
  { key := "transportation"
    domains := ["rome2rio", "uber.com", "lyft.com", "bus.com"]
    keywords := ["transport", "transporte", "transportation",
                 "bus", "taxi", "shuttle",
                 "route", "ruta",
                 "schedule", "horario",
                 "fare", "tarifa", "cost", "costo",
                 "frequency", "frecuencia",
                 "pickup", "recogida",
                 "dropoff", "destino",
                 "rental", "alquiler"] }

/-- `CONTENT_TYPES`, in Python dict insertion (= iteration) order. -/
def CONTENT_TYPES : List CategoryProfile :=
  [realEstateProfile, tourProfile, restaurantProfile, localTipsProfile,
   transportationProfile]

/-! ## `content_detection.py` -/

/-- `detect_by_domain(url)`.  Python truthiness: an empty `url` short-circuits
to `None`.  The host is lowercased and every occurrence of `"www."` is
removed (Python `str.replace`), then each category's domain patterns are
tested for substring containment in registry order, first match winning. -/
def detect_by_domain (url : String) : Option String :=
  if url = "" then none
  else
    let domain := pyReplaceWwwStr (strLower (netloc url))
    CONTENT_TYPES.findSome? (fun config =>
      config.domains.findSome? (fun domain_pattern =>
        if strContains domain (strLower domain_pattern) then some config.key else none))

/-- The per-category confidence entry of the `scores` dict in
`detect_by_keywords`: fraction of the category's keywords found (as
case-insensitive substrings) in the given (already lowercased) text. -/
def keywordConfidence (text : String) (config : CategoryProfile) : ℚ :=
  let keyword_matches := config.keywords.countP (fun keyword => strContains text (strLower keyword))
  let total_keywords := config.keywords.length
  if total_keywords > 0 then (keyword_matches : ℚ) / (total_keywords : ℚ) else 0

/-- Python `max(items, key=...)`: first item attaining the maximum (later
items replace the running best only on strictly greater key). -/
def maxByConfFirst : List (String × ℚ) → String × ℚ
  | [] => ("", 0)
  | x :: xs => xs.foldl (fun best y => if y.2 > best.2 then y else best) x

/-- The `best_type` selection of `detect_by_keywords`:
`max(scores.items(), key=lambda x: x[1]['confidence'])` over the registry,
on the lowercased extracted text.  `rawText` models `soup.get_text()`. -/
def bestKeywordMatch (rawText : String) : String × ℚ :=
  let text := strLower rawText
  maxByConfFirst (CONTENT_TYPES.map (fun config => (config.key, keywordConfidence text config)))

/-- `detect_by_keywords(html, min_confidence)`.  `rawText` models the
BeautifulSoup-extracted visible text `soup.get_text()` (the parse/strip step
is the external collaborator; a parse exception yields `(None, 0.0)` in the
source and is not modelled).  Returns the best category only when its
confidence reaches `min_confidence`, else `(none, confidence)`. -/
def detect_by_keywords (rawText : String) (min_confidence : ℚ := 0.5) : Option String × ℚ :=
  let best := bestKeywordMatch rawText
  if best.2 ≥ min_confidence then (some best.1, best.2) else (none, best.2)

/-- The `DetectionResult` dict returned by `detect_content_type`. -/
structure DetectionResult where
  content_type : String
  confidence : ℚ
  method : String
  suggested_type : String
deriving DecidableEq, Repr

/-- Strategies 2-5 of `detect_content_type` (everything after the
user-override check): domain, keywords, optional LLM, fallback. -/
def detectCTRest (url rawText : String) (use_llm_fallback : Bool)
    (llmResult : String × ℚ) : DetectionResult :=
  match detect_by_domain url with
  | some domain_type =>
      { content_type := domain_type, confidence := 0.95, method := "domain",
        suggested_type := domain_type }
  | none =>
    let kw := detect_by_keywords rawText 0.3
    match kw.1 with
    | some keyword_type =>
        if kw.2 ≥ 0.7 then
          { content_type := keyword_type, confidence := kw.2,
            method := "keywords_high_confidence", suggested_type := keyword_type }
        else if use_llm_fallback then
          { content_type := llmResult.1, confidence := llmResult.2, method := "llm",
            suggested_type := llmResult.1 }
        else
          { content_type := keyword_type, confidence := kw.2,
            method := "keywords_medium_confidence", suggested_type := keyword_type }
    | none =>
        if use_llm_fallback then
          { content_type := llmResult.1, confidence := llmResult.2, method := "llm",
            suggested_type := llmResult.1 }
        else
          { content_type := "real_estate", confidence := 0.3,
            method := "default_fallback", suggested_type := "real_estate" }

/-- `detect_content_type(url, html, user_override, use_llm_fallback)`.
`rawText` models the extracted page text (see `detect_by_keywords`);
`llmResult` is the oracle for the external `classify_with_llm` collaborator,
consulted only when `use_llm_fallback` is set.  A supplied override that is
a registry key wins outright; an invalid (or empty, hence Python-falsy)
override is ignored and the cascade proceeds. -/
def detect_content_type (url rawText : String) (user_override : Option String)
    (use_llm_fallback : Bool) (llmResult : String × ℚ) : DetectionResult :=
  match user_override with
  | some o =>
      if CONTENT_TYPES.any (fun c => c.key == o) then
        { content_type := o, confidence := 1, method := "user_override",
          suggested_type := o }
      else detectCTRest url rawText use_llm_fallback llmResult
  | none => detectCTRest url rawText use_llm_fallback llmResult

/-! ## `page_type_detection.py`: Level 1 URL pattern analysis

Each Python `re.search` call is modelled as `anySuffix m path` where `m`
decides whether the regex matches starting at the given position; the
regexes involved contain no constructs whose backtracking differs from this
reading (see the per-matcher comments). -/

inductive PageType
  | specific
  | general
deriving DecidableEq, Repr

/-- The `{'page_type', 'confidence', 'reason'}` dicts produced by
`_analyze_url_patterns` and `_analyze_html_structure`. -/
structure AnalyzerResult where
  page_type : PageType
  confidence : ℚ
  reason : String
deriving DecidableEq, Repr

/-- `re.search(r'/d\d+-\d+', path)` at one position: `/d`, ≥1 digit, `-`, ≥1
digit (the digit run before `-` is maximal since `-` is not a digit). -/
def matchViatorAt : List Char → Bool
  | '/' :: 'd' :: rest =>
    let ds := rest.takeWhile Char.isDigit
    !ds.isEmpty &&
      (match rest.drop ds.length with
       | '-' :: d :: _ => d.isDigit
       | _ => false)
  | _ => false

/-- `re.search(r'/t\d{4,}', path)` at one position. -/
def matchGygAt : List Char → Bool
  | '/' :: 't' :: rest => decide (4 ≤ (rest.takeWhile Char.isDigit).length)
  | _ => false

/-- `re.search(r'-\d{5,}', path)` at one position. -/
def matchFiveDigitAt : List Char → Bool
  | '-' :: rest => decide (5 ≤ (rest.takeWhile Char.isDigit).length)
  | _ => false

/-- `re.search(r'/listing-\d+', path)` at one position. -/
def matchListingAt (l : List Char) : Bool :=
  "/listing-".data.isPrefixOf l &&
    (match l.drop 9 with
     | d :: _ => d.isDigit
     | [] => false)

/-- The characters after the first occurrence of `pat`, if `pat` occurs. -/
def dropAfterFirst (pat : List Char) : List Char → Option (List Char)
  | [] => if pat.isEmpty then some [] else none
  | c :: rest =>
    if pat.isPrefixOf (c :: rest) then some ((c :: rest).drop pat.length)
    else dropAfterFirst pat rest

/-- `re.search(r'/(attraction|restaurant).*review.*-d\d+', path)` at one
position: the word, then a later `review`, then a later `-d<digit>`.
Taking the first `review` occurrence is complete: anything after a later
occurrence is also after the first. -/
def matchTripadvisorAt : List Char → Bool
  | '/' :: rest =>
    (if "attraction".data.isPrefixOf rest || "restaurant".data.isPrefixOf rest then
      match dropAfterFirst "review".data (rest.drop 10) with
      | none => false
      | some r2 =>
        anySuffix (fun l2 =>
          match l2 with
          | '-' :: 'd' :: d :: _ => d.isDigit
          | _ => false) r2
    else false)
  | _ => false

/-- The character class `[a-z0-9-]`. -/
def isSlugChar (c : Char) : Bool := c.isLower || c.isDigit || c == '-'

/-- `re.search(r'/property/[a-z0-9-]+$', path)` at one position: `/property/`
followed by a nonempty run of slug characters reaching the end. -/
def matchPropertyAt (l : List Char) : Bool :=
  "/property/".data.isPrefixOf l &&
    (let rest := l.drop 10
     !rest.isEmpty && rest.all isSlugChar)

/-- `len([p for p in path.split('/') if p])`. -/
def pathDepth (path : List Char) : Nat :=
  ((path.splitOn '/').filter (fun seg => !seg.isEmpty)).length

def pluralWords : List String := ["tours", "properties", "restaurants", "activities"]

/-- `re.search(r'/(tours|properties|restaurants|activities)/?$', path)` at one
position. -/
def matchPluralEndAt : List Char → Bool
  | '/' :: rest => pluralWords.any (fun w => rest == w.data || rest == w.data ++ ['/'])
  | _ => false

def categoryWords : List String := ["tours", "properties", "restaurants"]

/-- `re.search(r'/(tours|properties|restaurants)/[^/]+/?$', path)` at one
position: the word, `/`, then ≥1 non-`/` characters, an optional trailing
`/`, and end of string. -/
def matchCategoryAt : List Char → Bool
  | '/' :: rest =>
    categoryWords.any (fun w =>
      w.data.isPrefixOf rest &&
        (match rest.drop w.data.length with
         | '/' :: seg =>
            (let core := if seg.getLast? == some '/' then seg.dropLast else seg
             !core.isEmpty && core.all (fun c => !(c == '/')))
         | _ => false))
  | _ => false

/-- `re.search(r'\d{4,}', segment)`. -/
def hasFourDigitRun (l : List Char) : Bool :=
  anySuffix (fun s => decide (4 ≤ (s.takeWhile Char.isDigit).length)) l

/-- `path.rstrip('/').split('/')[-1]`. -/
def lastSegment (path : List Char) : List Char :=
  let stripped := (path.reverse.dropWhile (fun c => c == '/')).reverse
  (stripped.reverse.takeWhile (fun c => !(c == '/'))).reverse

/-- `_analyze_url_patterns(url, content_type)` — Level 1 of the page-type
cascade.  (The Python function never reads `content_type`.)  The rules fire
in source order, first match returning. -/
def analyze_url_patterns (url : String) (content_type : String) : AnalyzerResult :=
  if url = "" then ⟨.specific, 0.3, "No URL provided"⟩
  else
    let path := (strLower (urlPath url)).data
    let domain := strLower (netloc url)
    if anySuffix matchViatorAt path then ⟨.specific, 0.95, "Viator-style ID (d742-12345)"⟩
    else if anySuffix matchGygAt path then ⟨.specific, 0.95, "GetYourGuide-style ID (t12345)"⟩
    else if anySuffix matchFiveDigitAt path then ⟨.specific, 0.90, "Contains 5+ digit ID"⟩
    else if anySuffix matchListingAt path then ⟨.specific, 0.95, "Listing with ID"⟩
    else if anySuffix matchTripadvisorAt path then ⟨.specific, 0.95, "TripAdvisor specific review page"⟩
    else if anySuffix matchPropertyAt path then ⟨.specific, 0.85, "Property with slug"⟩
    else if 4 ≤ pathDepth path then
      ⟨.specific, 0.75, "Deep path (" ++ toString (pathDepth path) ++ " levels)"⟩
    else if anySuffix matchPluralEndAt path then ⟨.general, 0.90, "Ends in plural (listing page)"⟩
    else if anySuffix matchCategoryAt path && !hasFourDigitRun (lastSegment path) then
      ⟨.general, 0.85, "Category/destination page"⟩
    else if ["/search", "/browse", "/results", "/category"].any
        (fun w => strContains ⟨path⟩ w) then
      ⟨.general, 0.95, "Search/browse page"⟩
    else if ["/", "", "/index", "/index.html"].contains (⟨path⟩ : String) then
      ⟨.general, 0.90, "Homepage"⟩
    else if ["coldwell", "brevitas", "encuentra24", "remax"].any
        (fun w => strContains domain w) then
      ⟨.specific, 0.60, "Real estate domain, likely property page"⟩
    else ⟨.specific, 0.50, "URL pattern inconclusive, defaulting to specific"⟩

/-! ## `page_type_detection.py`: Level 2 HTML structure analysis

`text` models `soup.get_text().lower()`'s raw input `soup.get_text()` (the
function lowercases internally), and `card_count` the result of the
DOM-walking `_count_item_cards` (external HTML-parser collaborator). -/

def booking_keywords : List String :=
  ["book now", "reserve", "check availability", "add to cart", "book this"]

def filter_keywords : List String :=
  ["filter", "sort by", "price range", "showing", "results"]

def pagination_keywords : List String :=
  ["next page", "previous", "page 1", "page 2", "of"]

def specific_tour_keywords : List String :=
  ["what's included", "tour details", "meeting point", "cancellation policy",
   "departure time", "pick-up location", "what to bring", "tour itinerary"]

def general_guide_keywords : List String :=
  ["top tours", "best tours", "browse tours", "all tours",
   "things to do", "activities in", "explore", "discover",
   "guide to", "visit", "haven for", "perfect for",
   "don't miss", "must see", "what to expect"]

/-- `sum(1 for kw in kws if kw in text)`. -/
def countFound (kws : List String) (text : String) : Nat :=
  kws.countP (fun kw => strContains text kw)

/-- Number of positions of `l` at which `p` fires; counts `re.findall`
matches for the price patterns below (no two matches of those patterns can
start inside one another, so position counting equals findall counting). -/
def countMatchStarts (p : List Char → Bool) : List Char → Nat
  | [] => 0
  | c :: rest => (if p (c :: rest) then 1 else 0) + countMatchStarts p rest

/-- `r'\$\d+'` at one position. -/
def dollarAt : List Char → Bool
  | '$' :: d :: _ => d.isDigit
  | _ => false

/-- `r'USD\s*\d+'` at one position. -/
def usdAt (l : List Char) : Bool :=
  "USD".data.isPrefixOf l &&
    (match (l.drop 3).dropWhile (fun c => c.isWhitespace) with
     | d :: _ => d.isDigit
     | [] => false)

/-- `r'€\d+'` at one position. -/
def euroAt : List Char → Bool
  | '€' :: d :: _ => d.isDigit
  | _ => false

/-- `r'£\d+'` at one position. -/
def poundAt : List Char → Bool
  | '£' :: d :: _ => d.isDigit
  | _ => false

/-- `total_prices`: all four `re.findall` counts summed. -/
def totalPrices (text : String) : Nat :=
  countMatchStarts dollarAt text.data + countMatchStarts usdAt text.data +
    countMatchStarts euroAt text.data + countMatchStarts poundAt text.data

/-- The two accumulators and the indicator list built by
`_analyze_html_structure` before its final scoring step. -/
structure ScoreSheet where
  specific_score : Nat
  general_score : Nat
  indicators : List String
deriving DecidableEq, Repr

/-- The accumulation phase of `_analyze_html_structure`, in source order:
cards, booking elements, filter elements, pagination, tour-specific phrase
sets (only for `content_type == 'tour'`), price density. -/
def computeScores (text : String) (card_count : Nat) (content_type : String) : ScoreSheet :=
  let lower := strLower text
  let sheet : ScoreSheet :=
    if 5 ≤ card_count then
      ⟨0, 3, ["Found " ++ toString card_count ++ " item cards"]⟩
    else if 2 ≤ card_count then
      ⟨0, 1, ["Found " ++ toString card_count ++ " possible items"]⟩
    else
      ⟨2, 0, ["Found " ++ toString card_count ++ " item (single page)"]⟩
  let booking_found := countFound booking_keywords lower
  let sheet : ScoreSheet :=
    if 2 ≤ booking_found then
      ⟨sheet.specific_score + 3, sheet.general_score,
       sheet.indicators ++ ["Found " ++ toString booking_found ++ " booking elements"]⟩
    else sheet
  let filter_found := countFound filter_keywords lower
  let sheet : ScoreSheet :=
    if 2 ≤ filter_found then
      ⟨sheet.specific_score, sheet.general_score + 3,
       sheet.indicators ++ ["Found " ++ toString filter_found ++ " filter elements"]⟩
    else sheet
  let pagination_found := countFound pagination_keywords lower
  let sheet : ScoreSheet :=
    if 2 ≤ pagination_found then
      ⟨sheet.specific_score, sheet.general_score + 2, sheet.indicators ++ ["Found pagination"]⟩
    else sheet
  let sheet : ScoreSheet :=
    if content_type = "tour" then
      let specific_tour_found := countFound specific_tour_keywords lower
      let sheet : ScoreSheet :=
        if 2 ≤ specific_tour_found then
          ⟨sheet.specific_score + 2, sheet.general_score,
           sheet.indicators ++
             ["Found " ++ toString specific_tour_found ++ " specific tour details"]⟩
        else sheet
      let general_guide_found := countFound general_guide_keywords lower
      if 3 ≤ general_guide_found then
        ⟨sheet.specific_score, sheet.general_score + 3,
         sheet.indicators ++
           ["Found " ++ toString general_guide_found ++ " destination guide keywords"]⟩
      else if 1 ≤ general_guide_found then
        ⟨sheet.specific_score, sheet.general_score + 1,
         sheet.indicators ++ ["Found " ++ toString general_guide_found ++ " guide keyword"]⟩
      else sheet
    else sheet
  let total_prices := totalPrices lower
  if 10 ≤ total_prices then
    ⟨sheet.specific_score, sheet.general_score + 3,
     sheet.indicators ++ ["Found " ++ toString total_prices ++ " prices (listing)"]⟩
  else if total_prices ≤ 3 then
    ⟨sheet.specific_score + 1, sheet.general_score,
     sheet.indicators ++ ["Found " ++ toString total_prices ++ " price(s) (single item)"]⟩
  else sheet

/-- The final scoring step of `_analyze_html_structure`: zero-total default,
higher score wins at `score/total` capped at 0.95, tie broken by card count. -/
def resolveScores (specific_score general_score card_count : Nat)
    (indicators : List String) : AnalyzerResult :=
  let total_score := specific_score + general_score
  if total_score = 0 then
    ⟨.specific, 0.40, "No clear HTML indicators"⟩
  else if general_score < specific_score then
    ⟨.specific, min 0.95 ((specific_score : ℚ) / (total_score : ℚ)),
     String.intercalate ", " (indicators.take 3)⟩
  else if specific_score < general_score then
    ⟨.general, min 0.95 ((general_score : ℚ) / (total_score : ℚ)),
     String.intercalate ", " (indicators.take 3)⟩
  else if 5 ≤ card_count then
    ⟨.general, 0.60,
     "Tie broken by " ++ toString card_count ++ " cards (listing indicator)"⟩
  else
    ⟨.specific, 0.55, "Tie broken by booking elements over card count"⟩

/-- `_analyze_html_structure(html, content_type)`. -/
def analyze_html_structure (text : String) (card_count : Nat)
    (content_type : String) : AnalyzerResult :=
  let sheet := computeScores text card_count content_type
  resolveScores sheet.specific_score sheet.general_score card_count sheet.indicators

/-! ## `page_type_detection.py`: Level 3 and the cascade -/

/-- The parsed JSON verdict of a successful OpenAI Level-3 call. -/
structure OpenAIVerdict where
  page_type : PageType
  confidence : ℚ
  reasoning : String
deriving DecidableEq, Repr

/-- `_analyze_with_openai(url, html, content_type)`, with the network call
abstracted into `oracle`; `.error e` models the `except` branch (the call
raising), which is converted to a `specific`/0.40 fallback dict naming the
failure.  `cost`/`time` are wall-clock and not modelled. -/
def analyze_with_openai (oracle : Except String OpenAIVerdict) : AnalyzerResult :=
  match oracle with
  | .ok v => ⟨v.page_type, v.confidence, v.reasoning⟩
  | .error e => ⟨.specific, 0.40, "OpenAI analysis failed: " ++ e⟩

/-- Outcome of the signal-combination block of `detect_page_type` (Level 2). -/
structure CombinedSignal where
  page_type : PageType
  confidence : ℚ
  agreement : String
deriving DecidableEq, Repr

/-- The `COMBINING SIGNALS` block of `detect_page_type`: weighted blend with
agreement bonus, else the strictly stronger analyzer wins at its own
confidence, exact ties going to HTML at a 10% discount. -/
def combineLevel2 (url_result html_result : AnalyzerResult) : CombinedSignal :=
  let combined_confidence := url_result.confidence * 0.4 + html_result.confidence * 0.6
  let url_weight := url_result.confidence
  let html_weight := html_result.confidence
  if url_result.page_type = html_result.page_type then
    ⟨url_result.page_type, min 0.95 (combined_confidence + 0.15), "✅ Both URL and HTML agree"⟩
  else if url_weight < html_weight then
    ⟨html_result.page_type, html_result.confidence, "⚠️ HTML signal stronger than URL"⟩
  else if html_weight < url_weight then
    ⟨url_result.page_type, url_result.confidence, "⚠️ URL signal stronger than HTML"⟩
  else
    ⟨html_result.page_type, html_result.confidence * 0.9,
     "⚠️ TIE - preferring HTML (more information)"⟩

/-- The dict returned by `detect_page_type` (`cost`/`time`, being wall-clock
and dollar metering of the real network call, are not modelled). -/
structure PageTypeResult where
  page_type : PageType
  confidence : ℚ
  method : String
  indicators : List String
deriving DecidableEq, Repr

/-- `detect_page_type(url, html, content_type)`.  `htmlText` is the extracted
text of the HTML when present (`none` models Python-falsy `html`);
`card_count` and `oracle` are the external-collaborator boundaries described
above. -/
def detect_page_type (url : String) (htmlText : Option String)
    (content_type : String) (card_count : Nat)
    (oracle : Except String OpenAIVerdict) : PageTypeResult :=
  let url_result := analyze_url_patterns url content_type
  if 0.90 ≤ url_result.confidence then
    ⟨url_result.page_type, url_result.confidence, "url_pattern", [url_result.reason]⟩
  else
    match htmlText with
    | none =>
      ⟨url_result.page_type, url_result.confidence, "url_pattern_only",
       [url_result.reason, "No HTML for deeper validation"]⟩
    | some text =>
      let html_result := analyze_html_structure text card_count content_type
      let combined := combineLevel2 url_result html_result
      if combined.confidence < 0.80 then
        let openai_result := analyze_with_openai oracle
        if openai_result.page_type = combined.page_type then
          ⟨combined.page_type, min 0.95 openai_result.confidence, "url_html_openai_agreed",
           [url_result.reason, html_result.reason, "OpenAI: " ++ openai_result.reason]⟩
        else
          ⟨openai_result.page_type, openai_result.confidence, "url_html_openai_override",
           [url_result.reason, html_result.reason, "OpenAI: " ++ openai_result.reason]⟩
      else
        ⟨combined.page_type, combined.confidence, "url_html_combined",
         [url_result.reason, html_result.reason, combined.agreement]⟩

/-! ## Claim theorems -/

/-- C5: at Level 2 of the page-type cascade the combined confidence is the
weighted blend `0.4*url + 0.6*html`; agreement on page type yields
`min(0.95, combined + 0.15)`; on disagreement the analyzer with strictly
higher individual confidence wins at its own confidence; an exact tie takes
the HTML verdict at `0.9` times its confidence.  (`detect_page_type` invokes
`combineLevel2` exactly when the Level-1 confidence is below 0.90 and HTML
is present.) -/
theorem C5_level2_combination (tu th : PageType) (cu ch : ℚ) (ru rh : String) :
    (combineLevel2 ⟨tu, cu, ru⟩ ⟨th, ch, rh⟩).page_type =
      (if tu = th then tu else if cu < ch then th else if ch < cu then tu else th)
  ∧ (combineLevel2 ⟨tu, cu, ru⟩ ⟨th, ch, rh⟩).confidence =
      (if tu = th then min 0.95 (0.4 * cu + 0.6 * ch + 0.15)
       else if cu < ch then ch
       else if ch < cu then cu
       else 0.9 * ch) := by
  unfold combineLevel2
  dsimp only
  constructor
  · split_ifs <;> rfl
  · split_ifs <;> first
      | rfl
      | (show min 0.95 (cu * 0.4 + ch * 0.6 + 0.15) = min 0.95 (0.4 * cu + 0.6 * ch + 0.15)
         congr 1
         ring)
      | (show ch * 0.9 = 0.9 * ch
         ring)

/-- C6: `_analyze_html_structure` resolves its score sheet exactly as
claimed: both scores zero gives `specific` at 0.40 with reason "No clear
HTML indicators"; unequal scores give the higher-scoring page type at
confidence `winning score / (specific_score + general_score)` capped at
0.95; an exact (nonzero) tie gives `general` at fixed 0.60 when the card
count is at least 5, else `specific` at fixed 0.55. -/
theorem C6_scoresheet_resolution (s g cc : Nat) (ind : List String) :
    (s = 0 ∧ g = 0 →
      resolveScores s g cc ind = ⟨PageType.specific, 0.40, "No clear HTML indicators"⟩)
  ∧ (g < s →
      (resolveScores s g cc ind).page_type = PageType.specific ∧
      (resolveScores s g cc ind).confidence = min 0.95 ((s : ℚ) / ((s : ℚ) + (g : ℚ))))
  ∧ (s < g →
      (resolveScores s g cc ind).page_type = PageType.general ∧
      (resolveScores s g cc ind).confidence = min 0.95 ((g : ℚ) / ((s : ℚ) + (g : ℚ))))
  ∧ (s = g → ¬(s = 0 ∧ g = 0) →
      (resolveScores s g cc ind).page_type =
        (if 5 ≤ cc then PageType.general else PageType.specific) ∧
      (resolveScores s g cc ind).confidence = (if 5 ≤ cc then 0.60 else 0.55)) := by
  refine ⟨?_, ?_, ?_, ?_⟩
  · rintro ⟨rfl, rfl⟩
    rfl
  · intro h
    unfold resolveScores
    rw [if_neg (by omega), if_pos h]
    refine ⟨rfl, ?_⟩
    push_cast
    rfl
  · intro h
    unfold resolveScores
    rw [if_neg (by omega), if_neg (by omega), if_pos h]
    refine ⟨rfl, ?_⟩
    push_cast
    rfl
  · intro h h0
    unfold resolveScores
    rw [if_neg (by omega), if_neg (by omega), if_neg (by omega)]
    by_cases hc : 5 ≤ cc
    · rw [if_pos hc, if_pos hc, if_pos hc]
      exact ⟨rfl, rfl⟩
    · rw [if_neg hc, if_neg hc, if_neg hc]
      exact ⟨rfl, rfl⟩

/-- C6 witness: the four cases of the resolution theorem instantiated at
concrete score sheets. -/
theorem C6_scoresheet_resolution_witness :
    resolveScores 0 0 0 [] = ⟨PageType.specific, 0.40, "No clear HTML indicators"⟩
  ∧ (resolveScores 3 1 0 []).confidence = min 0.95 ((3 : ℚ) / ((3 : ℚ) + (1 : ℚ)))
  ∧ (resolveScores 1 3 0 []).page_type = PageType.general
  ∧ (resolveScores 2 2 7 []).confidence = 0.60
  ∧ (resolveScores 2 2 1 []).page_type = PageType.specific :=
  ⟨(C6_scoresheet_resolution 0 0 0 []).1 ⟨rfl, rfl⟩,
   ((C6_scoresheet_resolution 3 1 0 []).2.1 (by norm_num)).2,
   ((C6_scoresheet_resolution 1 3 0 []).2.2.1 (by norm_num)).1,
   (((C6_scoresheet_resolution 2 2 7 []).2.2.2 rfl (by omega)).2).trans (by norm_num),
   (((C6_scoresheet_resolution 2 2 1 []).2.2.2 rfl (by omega)).1).trans (by rfl)⟩

/-- C7: a user override that is a registry key short-circuits the
content-type cascade to `(override, 1.0, user_override)` regardless of url
and text; an override that is not a registry key leaves the cascade exactly
as if no override had been supplied. -/
theorem C7_user_override (url text o : String) (b : Bool) (llm : String × ℚ) :
    (CONTENT_TYPES.any (fun c => c.key == o) = true →
      detect_content_type url text (some o) b llm =
        { content_type := o, confidence := 1, method := "user_override", suggested_type := o })
  ∧ (CONTENT_TYPES.any (fun c => c.key == o) = false →
      detect_content_type url text (some o) b llm = detect_content_type url text none b llm) := by
  unfold detect_content_type
  constructor <;> intro h <;> simp [h]

/-- C7 witness: the override theorem at a valid (`tour`) and an invalid
(`bogus`) override. -/
theorem C7_user_override_witness :
    detect_content_type "u" "t" (some "tour") false ("real_estate", 0.3) =
      { content_type := "tour", confidence := 1, method := "user_override",
        suggested_type := "tour" }
  ∧ detect_content_type "u" "t" (some "bogus") false ("real_estate", 0.3) =
      detect_content_type "u" "t" none false ("real_estate", 0.3) :=
  ⟨(C7_user_override "u" "t" "tour" false ("real_estate", 0.3)).1 (by decide),
   (C7_user_override "u" "t" "bogus" false ("real_estate", 0.3)).2 (by decide)⟩

set_option maxRecDepth 4096 in
unseal Rat.add Rat.mul Rat.inv Rat.sub Rat.ofScientific in
/-- C1 counterexample: on this input Level 2 concludes `general` (URL
inconclusive at 0.50, HTML filter+pagination signals at 0.625), the Level-3
call fails, and `detect_page_type` returns `specific` — the failed Level-3
call replaced the Level-2 verdict instead of falling back to it. -/
theorem C1_counterexample :
    (combineLevel2 (analyze_url_patterns "https://example.com/abc" "tour")
        (analyze_html_structure "filter sort by next page previous" 0 "tour")).page_type =
      PageType.general
  ∧ (combineLevel2 (analyze_url_patterns "https://example.com/abc" "tour")
        (analyze_html_structure "filter sort by next page previous" 0 "tour")).confidence < 0.80
  ∧ (detect_page_type "https://example.com/abc" (some "filter sort by next page previous")
        "tour" 0 (.error "boom")).page_type = PageType.specific := by
  refine ⟨by decide, by decide, by decide⟩

set_option maxRecDepth 4096 in
unseal Rat.add Rat.mul Rat.inv Rat.sub Rat.ofScientific in
/-- C2 counterexample: for the text "menu" the best keyword category is
`restaurant` with positive confidence 1/20 below `min_confidence = 0.3`, yet
`detect_by_keywords` drops the category (returns `none`) and the cascade
falls through to `default_fallback` instead of returning `restaurant` with
method `keywords_medium_confidence`. -/
theorem C2_counterexample :
    bestKeywordMatch "menu" = ("restaurant", 1/20)
  ∧ (0 : ℚ) < 1/20
  ∧ (1/20 : ℚ) < 0.3
  ∧ detect_by_keywords "menu" 0.3 = (none, 1/20)
  ∧ detect_content_type "" "menu" none false ("real_estate", 0.3) =
      { content_type := "real_estate", confidence := 0.3, method := "default_fallback",
        suggested_type := "real_estate" } := by
  refine ⟨by decide, by decide, by decide, by decide, by decide⟩

set_option maxRecDepth 4096 in
unseal Rat.add Rat.mul Rat.inv Rat.sub Rat.ofScientific in
/-- C3 counterexample: a text containing every `restaurant` keyword drives
the keyword confidence to exactly 1.0 and the cascade returns it with the
heuristic method `keywords_high_confidence` — heuristic confidences are not
clamped to [0, 0.95] and 1.0 is not reserved to `user_override`. -/
theorem C3_counterexample :
    detect_content_type ""
        "restaurant restaurante menu menú cuisine cocina dish dishes platillos platos reservation reserva reservations dining comida chef hours horario price range rango de precio"
        none false ("real_estate", 0.3) =
      { content_type := "restaurant", confidence := 1,
        method := "keywords_high_confidence", suggested_type := "restaurant" } := by
  decide

set_option maxRecDepth 4096 in
unseal Rat.add Rat.mul Rat.inv Rat.sub Rat.ofScientific in
/-- C4 counterexample: for the URL `https://owww.lx.com/` the host
`owww.lx.com` has no leading `www.` and contains no configured domain
pattern, so the claimed leading-prefix-stripping matcher would find no
category — but the code removes the *interior* occurrence of `www.`,
producing `olx.com`, which matches the `olx` pattern and yields
`real_estate` at `(0.95, domain)`. -/
theorem C4_counterexample :
    netloc "https://owww.lx.com/" = "owww.lx.com"
  ∧ "www.".data.isPrefixOf "owww.lx.com".data = false
  ∧ CONTENT_TYPES.all
      (fun c => c.domains.all (fun p => !strContains "owww.lx.com" (strLower p))) = true
  ∧ detect_by_domain "https://owww.lx.com/" = some "real_estate"
  ∧ detect_content_type "https://owww.lx.com/" "" none false ("real_estate", 0.3) =
      { content_type := "real_estate", confidence := 0.95, method := "domain",
        suggested_type := "real_estate" } := by
  refine ⟨by decide, by decide, by decide, by decide, by decide⟩

/-- Per-category keyword confidence is nonnegative. -/
theorem keywordConfidence_nonneg (text : String) (config : CategoryProfile) :
    0 ≤ keywordConfidence text config := by
  unfold keywordConfidence
  dsimp only
  split_ifs with h
  · positivity
  · exact le_refl 0

/-- Per-category keyword confidence is at most one: a category can match at
most all of its keywords. -/
theorem keywordConfidence_le_one (text : String) (config : CategoryProfile) :
    keywordConfidence text config ≤ 1 := by
  unfold keywordConfidence
  dsimp only
  split_ifs with h
  · rw [div_le_one (by exact_mod_cast h)]
    exact Nat.cast_le.mpr (List.countP_le_length _)
  · norm_num

/-- The Python `max(..., key=...)` fold preserves any predicate holding for
the seed and all list elements. -/
theorem maxByConfFirst_pred (P : String × ℚ → Prop) :
    ∀ (xs : List (String × ℚ)) (x : String × ℚ), P x → (∀ y ∈ xs, P y) →
      P (List.foldl (fun best y => if y.2 > best.2 then y else best) x xs)
  | [], _, hx, _ => hx
  | y :: ys, x, hx, hys => by
    simp only [List.foldl_cons]
    refine maxByConfFirst_pred P ys _ ?_ ?_
    · by_cases hc : y.2 > x.2
      · simpa [hc] using hys y (by simp)
      · simpa [hc] using hx
    · intro z hz
      exact hys z (by simp [hz])

/-- The best keyword match always carries a confidence in [0, 1]. -/
theorem bestKeywordMatch_bounds (rawText : String) :
    0 ≤ (bestKeywordMatch rawText).2 ∧ (bestKeywordMatch rawText).2 ≤ 1 := by
  unfold bestKeywordMatch maxByConfFirst
  simp only [CONTENT_TYPES, List.map]
  refine maxByConfFirst_pred (fun p => 0 ≤ p.2 ∧ p.2 ≤ 1) _ _
    ⟨keywordConfidence_nonneg _ _, keywordConfidence_le_one _ _⟩ ?_
  intro y hy
  simp only [List.mem_cons, List.not_mem_nil, or_false] at hy
  rcases hy with rfl | rfl | rfl | rfl
  all_goals exact ⟨keywordConfidence_nonneg _ _, keywordConfidence_le_one _ _⟩

/-- The confidence component of `detect_by_keywords` is the best match's
confidence whether or not the threshold is met. -/
theorem detect_by_keywords_conf (rawText : String) (minc : ℚ) :
    (detect_by_keywords rawText minc).2 = (bestKeywordMatch rawText).2 := by
  unfold detect_by_keywords
  dsimp only
  split_ifs <;> rfl

/-- After the override stage, the cascade result is one of exactly five
shapes (domain hit, high/medium keyword hit at the best-match confidence,
LLM verdict, default fallback). -/
theorem detectCTRest_cases (url text : String) (b : Bool) (llm : String × ℚ) :
    (∃ d, detectCTRest url text b llm =
      { content_type := d, confidence := 0.95, method := "domain", suggested_type := d })
  ∨ (∃ kt, detectCTRest url text b llm =
      { content_type := kt, confidence := (bestKeywordMatch text).2,
        method := "keywords_high_confidence", suggested_type := kt })
  ∨ detectCTRest url text b llm =
      { content_type := llm.1, confidence := llm.2, method := "llm", suggested_type := llm.1 }
  ∨ (∃ kt, detectCTRest url text b llm =
      { content_type := kt, confidence := (bestKeywordMatch text).2,
        method := "keywords_medium_confidence", suggested_type := kt })
  ∨ detectCTRest url text b llm =
      { content_type := "real_estate", confidence := 0.3, method := "default_fallback",
        suggested_type := "real_estate" } := by
  have hc := detect_by_keywords_conf text 0.3
  unfold detectCTRest
  rcases detect_by_domain url with _ | d
  · rcases hkw : (detect_by_keywords text 0.3).1 with _ | kt
    · rcases b with _ | _
      · simp [hkw]
      · simp [hkw]
    · by_cases h07 : (0.7 : ℚ) ≤ (detect_by_keywords text 0.3).2
      · refine Or.inr (Or.inl ⟨kt, ?_⟩)
        rw [hc] at h07
        simp only [hkw, hc, ge_iff_le, if_pos h07]
      · rcases b with _ | _
        · refine Or.inr (Or.inr (Or.inr (Or.inl ⟨kt, ?_⟩)))
          rw [hc] at h07
          simp only [hkw, hc, ge_iff_le, if_neg h07, Bool.false_eq_true, if_false]
        · refine Or.inr (Or.inr (Or.inl ?_))
          rw [hc] at h07
          simp only [hkw, hc, ge_iff_le, if_neg h07, ite_true]
  · exact Or.inl ⟨d, by simp⟩

/-- C3 (amended): heuristic-method confidences of the content-type cascade
lie in [0, 1] — not [0, 0.95] as claimed: `domain` yields exactly 0.95 and
`default_fallback` exactly 0.3, but the keyword methods return the matched
fraction, which reaches 1.0 when every keyword of the winning category
occurs, so confidence 1.0 is not exclusive to `user_override` (which yields
exactly 1.0). -/
theorem C3_amended (url text : String) (o : Option String) (b : Bool) (llm : String × ℚ) :
    ((detect_content_type url text o b llm).method = "user_override" →
      (detect_content_type url text o b llm).confidence = 1)
  ∧ ((detect_content_type url text o b llm).method = "domain" →
      (detect_content_type url text o b llm).confidence = 0.95)
  ∧ ((detect_content_type url text o b llm).method = "default_fallback" →
      (detect_content_type url text o b llm).confidence = 0.3)
  ∧ ((detect_content_type url text o b llm).method = "keywords_high_confidence" ∨
      (detect_content_type url text o b llm).method = "keywords_medium_confidence" →
      0 ≤ (detect_content_type url text o b llm).confidence ∧
        (detect_content_type url text o b llm).confidence ≤ 1) := by
  have hb := bestKeywordMatch_bounds text
  unfold detect_content_type
  have main : ∀ r : DetectionResult, r = detectCTRest url text b llm →
      (r.method = "user_override" → r.confidence = 1)
    ∧ (r.method = "domain" → r.confidence = 0.95)
    ∧ (r.method = "default_fallback" → r.confidence = 0.3)
    ∧ (r.method = "keywords_high_confidence" ∨ r.method = "keywords_medium_confidence" →
        0 ≤ r.confidence ∧ r.confidence ≤ 1) := by
    intro r hr
    rcases detectCTRest_cases url text b llm with ⟨d, he⟩ | ⟨kt, he⟩ | he | ⟨kt, he⟩ | he <;>
      rw [he] at hr <;> subst hr <;>
      exact ⟨fun h => by simp_all, fun h => by simp_all, fun h => by simp_all,
        fun h => by first
          | exact ⟨hb.1, hb.2⟩
          | simp_all⟩
  rcases o with _ | ov
  · exact main _ rfl
  · dsimp only
    split_ifs with hov
    · exact ⟨fun h => rfl, fun h => by simp_all, fun h => by simp_all, fun h => by simp_all⟩
    · exact main _ rfl

/-- With no domain match and the LLM fallback disabled, the content-type
cascade result is decided entirely by where the best keyword confidence
falls: below 0.3 gives the default fallback, [0.3, 0.7) gives the
medium-confidence keyword result, at or above 0.7 the high-confidence one. -/
theorem detectCT_noLLM_cases (url rawText : String) (llm : String × ℚ)
    (hdom : detect_by_domain url = none) :
    ((bestKeywordMatch rawText).2 < 0.3 ∧
      detect_content_type url rawText none false llm =
        { content_type := "real_estate", confidence := 0.3,
          method := "default_fallback", suggested_type := "real_estate" })
  ∨ ((0.3 ≤ (bestKeywordMatch rawText).2 ∧ (bestKeywordMatch rawText).2 < 0.7) ∧
      detect_content_type url rawText none false llm =
        { content_type := (bestKeywordMatch rawText).1,
          confidence := (bestKeywordMatch rawText).2,
          method := "keywords_medium_confidence",
          suggested_type := (bestKeywordMatch rawText).1 })
  ∨ (0.7 ≤ (bestKeywordMatch rawText).2 ∧
      detect_content_type url rawText none false llm =
        { content_type := (bestKeywordMatch rawText).1,
          confidence := (bestKeywordMatch rawText).2,
          method := "keywords_high_confidence",
          suggested_type := (bestKeywordMatch rawText).1 }) := by
  by_cases h03 : (0.3 : ℚ) ≤ (bestKeywordMatch rawText).2
  · have hkw : detect_by_keywords rawText 0.3 =
        (some (bestKeywordMatch rawText).1, (bestKeywordMatch rawText).2) := by
      unfold detect_by_keywords
      rw [if_pos h03]
    by_cases h07 : (bestKeywordMatch rawText).2 < 0.7
    · refine Or.inr (Or.inl ⟨⟨h03, h07⟩, ?_⟩)
      unfold detect_content_type detectCTRest
      rw [hdom, hkw]
      dsimp only
      rw [if_neg (not_le.mpr h07)]
      simp
    · refine Or.inr (Or.inr ⟨not_lt.mp h07, ?_⟩)
      unfold detect_content_type detectCTRest
      rw [hdom, hkw]
      dsimp only
      rw [if_pos (not_lt.mp h07)]
  · have hkw : detect_by_keywords rawText 0.3 =
        (none, (bestKeywordMatch rawText).2) := by
      unfold detect_by_keywords
      rw [if_neg h03]
    refine Or.inl ⟨not_le.mp h03, ?_⟩
    unfold detect_content_type detectCTRest
    rw [hdom, hkw]
    rfl

/-- C2 (amended): when the winning keyword confidence is below
`min_confidence` the scorer does NOT return the category — it returns
`(none, confidence)`, and whenever the winning confidence is below the
cascade's `min_confidence = 0.3` the cascade (no override, no domain match,
LLM disabled) falls through to the `default_fallback` result; the category
is returned with method `keywords_medium_confidence` exactly when (if and
only if) the winning confidence lies in `[0.3, 0.7)` — at or above the
cascade's `min_confidence = 0.3` but below the high-confidence bar. -/
theorem C2_amended (url rawText : String) (minc : ℚ) (llm : String × ℚ) :
    ((bestKeywordMatch rawText).2 < minc →
      detect_by_keywords rawText minc = (none, (bestKeywordMatch rawText).2))
  ∧ (detect_by_domain url = none →
      (bestKeywordMatch rawText).2 < 0.3 →
      detect_content_type url rawText none false llm =
        { content_type := "real_estate", confidence := 0.3,
          method := "default_fallback", suggested_type := "real_estate" })
  ∧ (detect_by_domain url = none →
      ((detect_content_type url rawText none false llm).method =
          "keywords_medium_confidence" ↔
        0.3 ≤ (bestKeywordMatch rawText).2 ∧ (bestKeywordMatch rawText).2 < 0.7))
  ∧ (detect_by_domain url = none →
      0.3 ≤ (bestKeywordMatch rawText).2 →
      (bestKeywordMatch rawText).2 < 0.7 →
      detect_content_type url rawText none false llm =
        { content_type := (bestKeywordMatch rawText).1,
          confidence := (bestKeywordMatch rawText).2,
          method := "keywords_medium_confidence",
          suggested_type := (bestKeywordMatch rawText).1 }) := by
  refine ⟨?_, ?_, ?_, ?_⟩
  · intro h
    unfold detect_by_keywords
    rw [if_neg (not_le.mpr h)]
  · intro hdom hlow
    rcases detectCT_noLLM_cases url rawText llm hdom with ⟨_, he⟩ | ⟨⟨h03, _⟩, _⟩ | ⟨h07, _⟩
    · exact he
    · exact absurd hlow (not_lt.mpr h03)
    · exact absurd hlow (not_lt.mpr (le_trans (by norm_num) h07))
  · intro hdom
    constructor
    · intro hmed
      rcases detectCT_noLLM_cases url rawText llm hdom with ⟨_, he⟩ | ⟨hmid, _⟩ | ⟨_, he⟩
      · rw [he] at hmed
        exact absurd hmed (by decide)
      · exact hmid
      · rw [he] at hmed
        simp at hmed
    · rintro ⟨h03, h07⟩
      rcases detectCT_noLLM_cases url rawText llm hdom with ⟨hlow, _⟩ | ⟨_, he⟩ | ⟨hhigh, _⟩
      · exact absurd hlow (not_lt.mpr h03)
      · rw [he]
      · exact absurd h07 (not_lt.mpr hhigh)
  · intro hdom h03 h07
    rcases detectCT_noLLM_cases url rawText llm hdom with ⟨hlow, _⟩ | ⟨_, he⟩ | ⟨hhigh, _⟩
    · exact absurd hlow (not_lt.mpr h03)
    · exact he
    · exact absurd h07 (not_lt.mpr hhigh)

set_option maxRecDepth 4096 in
unseal Rat.add Rat.mul Rat.inv Rat.sub Rat.ofScientific in
/-- C2 amended witness: the scorer dropping a sub-threshold category
("casa", 1/25 < 0.5), the universal default-fallback consequence at "chef"
(1/20 < 0.3), and both directions of the medium-confidence characterization
at a text whose best confidence is exactly 0.3. -/
theorem C2_amended_witness :
    detect_by_keywords "casa" 0.5 = (none, (bestKeywordMatch "casa").2)
  ∧ detect_content_type "" "chef" none false ("real_estate", 0.3) =
      { content_type := "real_estate", confidence := 0.3,
        method := "default_fallback", suggested_type := "real_estate" }
  ∧ ((detect_content_type "" "menu cocina platos reserva chef horario" none false
        ("real_estate", 0.3)).method = "keywords_medium_confidence" ↔
      0.3 ≤ (bestKeywordMatch "menu cocina platos reserva chef horario").2 ∧
        (bestKeywordMatch "menu cocina platos reserva chef horario").2 < 0.7)
  ∧ detect_content_type "" "menu cocina platos reserva chef horario" none false
      ("real_estate", 0.3) =
      { content_type := (bestKeywordMatch "menu cocina platos reserva chef horario").1,
        confidence := (bestKeywordMatch "menu cocina platos reserva chef horario").2,
        method := "keywords_medium_confidence",
        suggested_type := (bestKeywordMatch "menu cocina platos reserva chef horario").1 } :=
  ⟨(C2_amended "" "casa" 0.5 ("real_estate", 0.3)).1 (by decide),
   (C2_amended "" "chef" 0.3 ("real_estate", 0.3)).2.1 rfl (by decide),
   (C2_amended "" "menu cocina platos reserva chef horario" 0.3 ("real_estate", 0.3)).2.2.1 rfl,
   (C2_amended "" "menu cocina platos reserva chef horario" 0.3 ("real_estate", 0.3)).2.2.2 rfl
     (by decide) (by decide)⟩

set_option maxRecDepth 4096 in
unseal Rat.add Rat.mul Rat.inv Rat.sub Rat.ofScientific in
/-- C3 amended witness: the `domain` method at exactly 0.95 and a
keyword-method confidence inside [0, 1]. -/
theorem C3_amended_witness :
    (detect_content_type "https://www.remax.com/x" "" none false
        ("real_estate", 0.3)).confidence = 0.95
  ∧ (0 ≤ (detect_content_type "" "menu cuisine dish chef hours dining" none false
        ("real_estate", 0.3)).confidence
     ∧ (detect_content_type "" "menu cuisine dish chef hours dining" none false
        ("real_estate", 0.3)).confidence ≤ 1) :=
  ⟨(C3_amended "https://www.remax.com/x" "" none false ("real_estate", 0.3)).2.1 (by decide),
   (C3_amended "" "menu cuisine dish chef hours dining" none false ("real_estate", 0.3)).2.2.2
     (Or.inr (by decide))⟩

/-- A `findSome?` whose inner function returns a constant under a guard is a
guarded `find?`. -/
theorem findSome?_guard (ds : List String) (q : String → Bool) (k : String) :
    (ds.findSome? (fun p => if q p then some k else none)) =
      (if ds.any q then some k else none) := by
  induction ds with
  | nil => rfl
  | cons d t ih =>
    by_cases h : q d
    · simp [List.findSome?_cons, List.any_cons, h]
    · simp [List.findSome?_cons, List.any_cons, h, ih]

/-- The nested domain-matching loop of `detect_by_domain` equals a single
first-match search over the registry. -/
theorem findSome?_domains (l : List CategoryProfile) (q : String → Bool) :
    (l.findSome? (fun config =>
        config.domains.findSome? (fun p => if q p then some config.key else none))) =
      (l.find? (fun config => config.domains.any q)).map (fun config => config.key) := by
  induction l with
  | nil => rfl
  | cons a t ih =>
    by_cases h : a.domains.any q
    · rw [List.findSome?_cons, findSome?_guard, if_pos h,
        List.find?_cons_of_pos (p := fun config => config.domains.any q) t h]
      rfl
    · rw [List.findSome?_cons, findSome?_guard, if_neg h,
        List.find?_cons_of_neg (p := fun config => config.domains.any q) t h]
      exact ih

/-- C4 (amended): `detect_by_domain` lowercases the parsed host, removes
every occurrence of the substring `www.` (not only a leading prefix), and
returns the first category in registry order one of whose domain patterns is
contained in the transformed host; whenever it finds a category `c`, the
cascade with no override returns `(c, 0.95, domain)`. -/
theorem C4_amended (url text : String) (b : Bool) (llm : String × ℚ) (c : String) :
    (url ≠ "" →
      detect_by_domain url =
        (CONTENT_TYPES.find? (fun config => config.domains.any (fun domain_pattern =>
            strContains (pyReplaceWwwStr (strLower (netloc url)))
              (strLower domain_pattern)))).map (fun config => config.key))
  ∧ (detect_by_domain url = some c →
      detect_content_type url text none b llm =
        { content_type := c, confidence := 0.95, method := "domain", suggested_type := c }) := by
  constructor
  · intro h
    unfold detect_by_domain
    rw [if_neg h]
    exact findSome?_domains _ _
  · intro h
    unfold detect_content_type detectCTRest
    rw [h]

set_option maxRecDepth 4096 in
unseal Rat.add Rat.mul Rat.inv Rat.sub Rat.ofScientific in
/-- C4 amended witness: the amended domain-matching description and the
cascade consequence at `https://www.remax.com/p/1`. -/
theorem C4_amended_witness :
    detect_by_domain "https://www.remax.com/p/1" =
      (CONTENT_TYPES.find? (fun config => config.domains.any (fun domain_pattern =>
          strContains (pyReplaceWwwStr (strLower (netloc "https://www.remax.com/p/1")))
            (strLower domain_pattern)))).map (fun config => config.key)
  ∧ detect_content_type "https://www.remax.com/p/1" "" none false ("real_estate", 0.3) =
      { content_type := "real_estate", confidence := 0.95, method := "domain",
        suggested_type := "real_estate" } :=
  ⟨(C4_amended "https://www.remax.com/p/1" "" false ("real_estate", 0.3) "real_estate").1
      (by decide),
   (C4_amended "https://www.remax.com/p/1" "" false ("real_estate", 0.3) "real_estate").2
      (by decide)⟩

/-- String concatenation is associative. -/
theorem strAppend_assoc (a b c : String) : a ++ b ++ c = a ++ (b ++ c) := by
  rcases a with ⟨la⟩
  rcases b with ⟨lb⟩
  rcases c with ⟨lc⟩
  show String.mk ((la ++ lb) ++ lc) = String.mk (la ++ (lb ++ lc))
  rw [List.append_assoc]

/-- C1 (amended): whenever the page-type cascade reaches Level 3 (Level-1
confidence below 0.90, HTML present, combined Level-2 confidence below 0.80)
and the OpenAI call fails, `detect_page_type` does not raise: it returns
page type `specific` at confidence exactly 0.40 with an indicator naming the
failure — which preserves the Level-2 verdict only when that verdict was
`specific` (method `url_html_openai_agreed`) and replaces a Level-2
`general` verdict (method `url_html_openai_override`). -/
theorem C1_amended (url text ct e : String) (cc : Nat)
    (h1 : (analyze_url_patterns url ct).confidence < 0.90)
    (h2 : (combineLevel2 (analyze_url_patterns url ct)
        (analyze_html_structure text cc ct)).confidence < 0.80) :
    (detect_page_type url (some text) ct cc (.error e)).page_type = PageType.specific
  ∧ (detect_page_type url (some text) ct cc (.error e)).confidence = 0.40
  ∧ (detect_page_type url (some text) ct cc (.error e)).method =
      (if (combineLevel2 (analyze_url_patterns url ct)
            (analyze_html_structure text cc ct)).page_type = PageType.specific
        then "url_html_openai_agreed" else "url_html_openai_override")
  ∧ ("OpenAI: " ++ ("OpenAI analysis failed: " ++ e)) ∈
      (detect_page_type url (some text) ct cc (.error e)).indicators := by
  have hmin : min (0.95 : ℚ) 0.40 = 0.40 := by norm_num
  unfold detect_page_type
  rw [if_neg (not_le.mpr h1)]
  dsimp only
  rw [if_pos h2]
  have hoai : analyze_with_openai (.error e) =
      ⟨PageType.specific, 0.40, "OpenAI analysis failed: " ++ e⟩ := rfl
  rw [hoai]
  by_cases hagree : (combineLevel2 (analyze_url_patterns url ct)
      (analyze_html_structure text cc ct)).page_type = PageType.specific
  · rw [if_pos hagree.symm, if_pos hagree]
    refine ⟨hagree, hmin, rfl, ?_⟩
    show _ ∈ [(analyze_url_patterns url ct).reason, (analyze_html_structure text cc ct).reason,
      "OpenAI: " ++ ("OpenAI analysis failed: " ++ e)]
    exact List.mem_cons_of_mem _ (List.mem_cons_of_mem _ (List.mem_singleton.mpr rfl))
  · rw [if_neg (fun hx => hagree hx.symm), if_neg hagree]
    refine ⟨rfl, rfl, rfl, ?_⟩
    show _ ∈ [(analyze_url_patterns url ct).reason, (analyze_html_structure text cc ct).reason,
      "OpenAI: " ++ ("OpenAI analysis failed: " ++ e)]
    exact List.mem_cons_of_mem _ (List.mem_cons_of_mem _ (List.mem_singleton.mpr rfl))

set_option maxRecDepth 4096 in
unseal Rat.add Rat.mul Rat.inv Rat.sub Rat.ofScientific in
/-- C1 amended witness: the failure path at the concrete
counterexample input, where Level 2 said `general`. -/
theorem C1_amended_witness :
    (detect_page_type "https://example.com/abc" (some "filter sort by next page previous")
        "tour" 0 (.error "net down")).confidence = 0.40
  ∧ ("OpenAI: " ++ ("OpenAI analysis failed: " ++ "net down")) ∈
      (detect_page_type "https://example.com/abc" (some "filter sort by next page previous")
        "tour" 0 (.error "net down")).indicators :=
  ⟨(C1_amended "https://example.com/abc" "filter sort by next page previous" "tour"
      "net down" 0 (by decide) (by decide)).2.1,
   (C1_amended "https://example.com/abc" "filter sort by next page previous" "tour"
      "net down" 0 (by decide) (by decide)).2.2.2⟩

/-- Lowercasing distributes over concatenation. -/
theorem strLower_append (a b : String) : strLower (a ++ b) = strLower a ++ strLower b := by
  rcases a with ⟨la⟩
  rcases b with ⟨lb⟩
  show String.mk ((la ++ lb).map Char.toLower) =
    String.mk (la.map Char.toLower ++ lb.map Char.toLower)
  rw [List.map_append]

/-- A prefix of `l` is a prefix of `l ++ b`. -/
theorem isPrefixOf_append (pat l b : List Char) (h : pat.isPrefixOf l = true) :
    pat.isPrefixOf (l ++ b) = true := by
  induction pat generalizing l with
  | nil => rcases l ++ b with _ | ⟨c, cs⟩ <;> rfl
  | cons p ps ih =>
    cases l with
    | nil => cases h
    | cons c cs =>
      simp only [List.cons_append, List.isPrefixOf, Bool.and_eq_true] at h ⊢
      exact ⟨h.1, ih cs h.2⟩

/-- If some suffix of `a` satisfies `p`, and `p` survives appending `b`, then
some suffix of `a ++ b` satisfies `p`. -/
theorem anySuffix_append (p : List Char → Bool) (a b : List Char)
    (hmono : ∀ l, p l = true → p (l ++ b) = true)
    (h : anySuffix p a = true) : anySuffix p (a ++ b) = true := by
  induction a with
  | nil =>
    have hb : p b = true := hmono [] h
    cases b with
    | nil => exact hb
    | cons c cs =>
      show (p (c :: cs) || anySuffix p cs) = true
      rw [hb]
      rfl
  | cons c cs ih =>
    show (p (c :: cs ++ b) || anySuffix p (cs ++ b)) = true
    have h' : (p (c :: cs) || anySuffix p cs) = true := h
    rcases (by simpa using h' : p (c :: cs) = true ∨ anySuffix p cs = true) with hhead | htail
    · rw [hmono (c :: cs) hhead]
      rfl
    · rw [ih htail, Bool.or_true]

/-- Substring containment survives appending text on the right. -/
theorem strContains_append (t extra pat : String) (h : strContains t pat = true) :
    strContains (t ++ extra) pat = true := by
  rcases t with ⟨lt⟩
  rcases extra with ⟨le⟩
  show anySuffix (fun l => pat.data.isPrefixOf l) (lt ++ le) = true
  exact anySuffix_append _ lt le (fun l hl => isPrefixOf_append pat.data l le hl) h

/-- C9: the per-category confidence `KeywordScorer` computes (matched
fraction of the category's keywords) is monotone under extending the text —
in particular, adding further occurrences of the winning category's keywords
never decreases that category's confidence. -/
theorem C9_keyword_monotonicity (config : CategoryProfile) (t extra : String) :
    keywordConfidence (strLower t) config ≤ keywordConfidence (strLower (t ++ extra)) config := by
  unfold keywordConfidence
  dsimp only
  split_ifs with hl
  · rw [div_le_div_iff_of_pos_right (by exact_mod_cast hl)]
    refine Nat.cast_le.mpr (List.countP_mono_left ?_)
    intro kw _ hc
    rw [strLower_append]
    exact strContains_append _ _ _ hc
  · exact le_refl 0

/-- C10: on text containing no keyword of any category, every per-category
confidence is 0, the Python `max` picks the first registry entry
(`real_estate` at 0.0), `detect_by_keywords` returns `(none, 0)` without
raising, and the cascade (no valid override, no domain match, LLM disabled)
returns the `real_estate`/0.3/`default_fallback` result.  (The source's
parse-exception path returns the same `(None, 0.0)` through its `except`
branch; HTML parsing itself is the external collaborator.) -/
theorem C10_no_keywords (url rawText : String) (minc : ℚ) (llm : String × ℚ)
    (hkw : ∀ config ∈ CONTENT_TYPES, ∀ kw ∈ config.keywords,
        strContains (strLower rawText) (strLower kw) = false)
    (hmin : 0 < minc) (hdom : detect_by_domain url = none) :
    bestKeywordMatch rawText = ("real_estate", 0)
  ∧ detect_by_keywords rawText minc = (none, 0)
  ∧ detect_content_type url rawText none false llm =
      { content_type := "real_estate", confidence := 0.3, method := "default_fallback",
        suggested_type := "real_estate" } := by
  have hconf : ∀ config ∈ CONTENT_TYPES, keywordConfidence (strLower rawText) config = 0 := by
    intro config hc
    unfold keywordConfidence
    dsimp only
    have hz : config.keywords.countP
        (fun keyword => strContains (strLower rawText) (strLower keyword)) = 0 :=
      List.countP_eq_zero.mpr (fun kw hkwm => by simp [hkw config hc kw hkwm])
    rw [hz]
    split_ifs <;> simp
  have h1 := hconf realEstateProfile (by simp [CONTENT_TYPES])
  have h2 := hconf tourProfile (by simp [CONTENT_TYPES])
  have h3 := hconf restaurantProfile (by simp [CONTENT_TYPES])
  have h4 := hconf localTipsProfile (by simp [CONTENT_TYPES])
  have h5 := hconf transportationProfile (by simp [CONTENT_TYPES])
  have hbest : bestKeywordMatch rawText = ("real_estate", 0) := by
    unfold bestKeywordMatch maxByConfFirst
    simp only [CONTENT_TYPES, List.map, h1, h2, h3, h4, h5]
    norm_num [List.foldl]
    rfl
  have hdk : ∀ m : ℚ, 0 < m → detect_by_keywords rawText m = (none, 0) := by
    intro m hm
    unfold detect_by_keywords
    rw [hbest]
    dsimp only
    rw [if_neg (not_le.mpr hm)]
  refine ⟨hbest, hdk minc hmin, ?_⟩
  unfold detect_content_type detectCTRest
  rw [hdom, hdk 0.3 (by norm_num)]
  rfl

/-- C10 witness: the empty URL and empty text. -/
theorem C10_no_keywords_witness :
    bestKeywordMatch "" = ("real_estate", 0)
  ∧ detect_by_keywords "" 0.3 = (none, 0)
  ∧ detect_content_type "" "" none false ("real_estate", 0.3) =
      { content_type := "real_estate", confidence := 0.3, method := "default_fallback",
        suggested_type := "real_estate" } :=
  C10_no_keywords "" "" 0.3 ("real_estate", 0.3) (by decide) (by norm_num) rfl

/-- Bounds on the confidence of an if-then-else of analyzer results follow
from bounds on both branches. -/
theorem ite_confidence_bounds (c : Prop) [Decidable c] (a b : AnalyzerResult)
    (P : ℚ → Prop) (ha : P a.confidence) (hb : P b.confidence) :
    P (if c then a else b).confidence := by
  split_ifs <;> assumption

set_option maxHeartbeats 800000 in
/-- Every Level-1 confidence lies in [0.3, 0.95]. -/
theorem analyze_url_patterns_bounds (url ct : String) :
    0.3 ≤ (analyze_url_patterns url ct).confidence ∧
      (analyze_url_patterns url ct).confidence ≤ 0.95 := by
  unfold analyze_url_patterns
  refine ite_confidence_bounds _ _ _ (fun q => 0.3 ≤ q ∧ q ≤ 0.95)
    ⟨by norm_num, by norm_num⟩ ?_
  show 0.3 ≤ _ ∧ _ ≤ 0.95
  repeat
    refine ite_confidence_bounds _ _ _ (fun q => 0.3 ≤ q ∧ q ≤ 0.95)
      ⟨by norm_num, by norm_num⟩ ?_
  exact ⟨by norm_num, by norm_num⟩

/-- Every resolved HTML-structure confidence lies in [0, 0.95]. -/
theorem resolveScores_bounds (s g cc : Nat) (ind : List String) :
    0 ≤ (resolveScores s g cc ind).confidence ∧
      (resolveScores s g cc ind).confidence ≤ 0.95 := by
  unfold resolveScores
  dsimp only
  split_ifs
  · exact ⟨by norm_num, by norm_num⟩
  · exact ⟨le_min (by norm_num) (by positivity), min_le_left _ _⟩
  · exact ⟨le_min (by norm_num) (by positivity), min_le_left _ _⟩
  · exact ⟨by norm_num, by norm_num⟩
  · exact ⟨by norm_num, by norm_num⟩

/-- Every Level-2 HTML-analysis confidence lies in [0, 0.95]. -/
theorem analyze_html_structure_bounds (text : String) (cc : Nat) (ct : String) :
    0 ≤ (analyze_html_structure text cc ct).confidence ∧
      (analyze_html_structure text cc ct).confidence ≤ 0.95 := by
  unfold analyze_html_structure
  exact resolveScores_bounds _ _ _ _

/-- The Level-2 combination stays within [0, 0.95] when its inputs do. -/
theorem combineLevel2_bounds (u h : AnalyzerResult)
    (hu0 : 0 ≤ u.confidence) (hu1 : u.confidence ≤ 0.95)
    (hh0 : 0 ≤ h.confidence) (hh1 : h.confidence ≤ 0.95) :
    0 ≤ (combineLevel2 u h).confidence ∧ (combineLevel2 u h).confidence ≤ 0.95 := by
  unfold combineLevel2
  dsimp only
  split_ifs
  · exact ⟨le_min (by norm_num) (by linarith), min_le_left _ _⟩
  · exact ⟨hh0, hh1⟩
  · exact ⟨hu0, hu1⟩
  · exact ⟨by linarith, by linarith⟩

/-- C8: for every input and every behaviour of the OpenAI collaborator whose
successful verdicts carry a confidence in [0, 1] (failures included), the
page-type cascade returns a confidence in [0, 1] and one of exactly the five
method tags. -/
theorem C8_result_invariants (url ct : String) (htmlText : Option String) (cc : Nat)
    (oracle : Except String OpenAIVerdict)
    (hok : ∀ v, oracle = Except.ok v → 0 ≤ v.confidence ∧ v.confidence ≤ 1) :
    (0 ≤ (detect_page_type url htmlText ct cc oracle).confidence ∧
      (detect_page_type url htmlText ct cc oracle).confidence ≤ 1)
  ∧ (detect_page_type url htmlText ct cc oracle).method ∈
      ["url_pattern", "url_pattern_only", "url_html_combined",
       "url_html_openai_agreed", "url_html_openai_override"] := by
  have hu := analyze_url_patterns_bounds url ct
  unfold detect_page_type
  by_cases h90 : (0.90 : ℚ) ≤ (analyze_url_patterns url ct).confidence
  · rw [if_pos h90]
    exact ⟨⟨le_trans (by norm_num) hu.1, le_trans hu.2 (by norm_num)⟩, by simp⟩
  · rw [if_neg h90]
    cases htmlText with
    | none =>
      exact ⟨⟨le_trans (by norm_num) hu.1, le_trans hu.2 (by norm_num)⟩, by simp⟩
    | some text =>
      have hh := analyze_html_structure_bounds text cc ct
      have hcomb := combineLevel2_bounds (analyze_url_patterns url ct)
        (analyze_html_structure text cc ct)
        (le_trans (by norm_num) hu.1) hu.2 hh.1 hh.2
      dsimp only
      by_cases h80 : (combineLevel2 (analyze_url_patterns url ct)
          (analyze_html_structure text cc ct)).confidence < 0.80
      rotate_left
      · rw [if_neg h80]
        exact ⟨⟨hcomb.1, le_trans hcomb.2 (by norm_num)⟩, by simp⟩
      · rw [if_pos h80]
        cases oracle with
        | error e =>
          have hoai : analyze_with_openai (.error e) =
              ⟨PageType.specific, 0.40, "OpenAI analysis failed: " ++ e⟩ := rfl
          rw [hoai]
          split_ifs with hag
          · exact ⟨⟨by norm_num, by norm_num⟩, by simp⟩
          · exact ⟨⟨by norm_num, by norm_num⟩, by simp⟩
        | ok v =>
          have hv := hok v rfl
          have hoai : analyze_with_openai (.ok v) =
              ⟨v.page_type, v.confidence, v.reasoning⟩ := rfl
          rw [hoai]
          split_ifs with hag
          · exact ⟨⟨le_min (by norm_num) hv.1,
              le_trans (min_le_left _ _) (by norm_num)⟩, by simp⟩
          · exact ⟨⟨hv.1, hv.2⟩, by simp⟩

set_option maxRecDepth 4096 in
unseal Rat.add Rat.mul Rat.inv Rat.sub Rat.ofScientific in
/-- C8 witness: the invariant at a concrete call with a stubbed successful
oracle. -/
theorem C8_result_invariants_witness :
    (0 ≤ (detect_page_type "https://example.com/abc" none "tour" 0
        (.ok ⟨PageType.general, 0.5, "stub"⟩)).confidence ∧
      (detect_page_type "https://example.com/abc" none "tour" 0
        (.ok ⟨PageType.general, 0.5, "stub"⟩)).confidence ≤ 1)
  ∧ (detect_page_type "https://example.com/abc" none "tour" 0
        (.ok ⟨PageType.general, 0.5, "stub"⟩)).method ∈
      ["url_pattern", "url_pattern_only", "url_html_combined",
       "url_html_openai_agreed", "url_html_openai_override"] :=
  C8_result_invariants "https://example.com/abc" "tour" none 0
    (.ok ⟨PageType.general, 0.5, "stub"⟩)
    (fun v hv => by cases hv; exact ⟨by norm_num, by norm_num⟩)
